import Mathlib

/-!
# Verification of the voice-agent media relay (habibshahid/voice-agent-deepgram)

Shallow embedding of the repository's audio codec engine
(audio-format-conversion.js), RTP packetizer (rtp-server.js), relay
WebSocket handler (server.js) and per-call state machine
(asterisk-bridge.js), together with theorems settling the frozen claims
about the natural-language specification.

Modelling conventions:
* Byte buffers are `List Nat` with each element a byte value (0–255);
  16-bit PCM buffers are `List Int` of decoded samples, with explicit
  little-endian byte conversions where byte counts matter.
* JavaScript number arithmetic on the integers appearing here is exact
  and is modelled with `Nat`/`Int`; the IEEE-754 arithmetic inside
  `resampleAudio` is modelled with exact fractions carried as an integer
  numerator and denominator, which agrees with the doubles for the
  integer sample rates the program uses.
* Writing a JS number into a `Buffer` element truncates modulo 256, and
  `Int16Array` stores wrap modulo 2^16; both are made explicit.
* Event-driven stateful code becomes explicit state-transition functions
  on structures mirroring the instance fields of the source.
-/

/-! ## Codec engine (audio-format-conversion.js) -/

/-- The 256-entry μ-law decode table of `initMulawTable`: invert all 8
bits, split sign / 3-bit exponent / 4-bit mantissa, and reconstruct
`((mantissa << (exponent + 3)) + 132) * sign`.  Defined as a function of
the table index (meaningful for indices 0–255, exactly the entries the
`Int16Array(256)` holds). -/
def mulawToLinearTable (i : Nat) : Int :=
  let mulaw := i ^^^ 0xFF
  let signNeg := mulaw &&& 0x80 ≠ 0
  let exponent := (mulaw >>> 4) &&& 0x07
  let mantissa := mulaw &&& 0x0F
  let sample : Int := ((mantissa <<< (exponent + 3)) + 132 : Nat)
  if signNeg then -sample else sample

/-- `linearToMulawSample` from audio-format-conversion.js, verbatim:
clamp to [-32768, 32767], take sign and magnitude, bias by +132, pick the
first exponent `i` in 0..7 with `biased ≤ (0xFFF >> i)` (defaulting to 0
when none fits), derive the mantissa (note: the exponent-0 branch uses
`biased >> 4` *without* masking to 4 bits), compose, and invert all bits.
The result is a JS number, not necessarily a byte. -/
def linearToMulawSample (sample : Int) : Nat :=
  let s := max (-32768) (min 32767 sample)
  let sign : Nat := if s < 0 then 0x80 else 0
  let biased : Nat := s.natAbs + 132
  let exponent := ((List.range 8).find? (fun i => decide (biased ≤ 0xFFF >>> i))).getD 0
  let mantissa := if exponent = 0 then biased >>> 4 else (biased >>> (exponent + 3)) &&& 0x0F
  let mulaw := sign ||| (exponent <<< 4) ||| mantissa
  mulaw ^^^ 0xFF

/-- Round trip of one sample through the encoder and the decode table,
i.e. `MULAW_TO_LINEAR_TABLE[linearToMulawSample(s)]`. -/
def mulawRoundTrip (s : Int) : Int :=
  mulawToLinearTable (linearToMulawSample s)

/-- Little-endian write of a 16-bit sample (`Buffer.writeInt16LE`):
two's-complement wrap modulo 2^16, low byte first. -/
def writeInt16LE (v : Int) : List Nat :=
  let u := (v % 65536).toNat
  [u % 256, u / 256]

/-- Little-endian read of a 16-bit sample (`Buffer.readInt16LE`). -/
def readInt16LE (b0 b1 : Nat) : Int :=
  let u := b0 % 256 + (b1 % 256) * 256
  if u < 32768 then (u : Int) else (u : Int) - 65536

/-- Decode a byte buffer into its int16 samples, two bytes per sample,
dropping an odd trailing byte (the source loops to `length / 2`). -/
def samplesOfBytes : List Nat → List Int
  | b0 :: b1 :: rest => readInt16LE b0 b1 :: samplesOfBytes rest
  | _ => []

/-- Encode int16 samples into a little-endian byte buffer. -/
def bytesOfSamples (ss : List Int) : List Nat :=
  ss.flatMap writeInt16LE

/-- `Math.ceil(a / b)` for natural `a`, `b` (`b > 0`), as the source's
output-size computation `Math.ceil(inputSamples * outputSampleRate /
inputSampleRate)` evaluates it. -/
def ceilDiv (a b : Nat) : Nat := (a + b - 1) / b

/-- The integer part of the fractional input position
`i * inputSampleRate / outputSampleRate` (the source's
`inputIndexFloor = Math.floor(inputIndex)`). -/
def loIdx (inRate outRate i : Nat) : Nat := i * inRate / outRate

/-- Numerator of the fractional part of the input position over the
denominator `outRate`; `t = idxRem / outRate` is the source's
`t = inputIndex - inputIndexFloor`. -/
def idxRem (inRate outRate i : Nat) : Nat := i * inRate % outRate

/-- The source's `inputIndexCeil = Math.min(inputSamples - 1,
Math.ceil(inputIndex))`. -/
def hiIdx (len inRate outRate i : Nat) : Nat :=
  min (len - 1) (loIdx inRate outRate i + (if idxRem inRate outRate i = 0 then 0 else 1))

/-- Exact value of `Math.round(s1 * (1 - t) + s2 * t)` for `t = r / den`:
JS `Math.round x = ⌊x + 1/2⌋`, so this is the floor of
`(2 * (s1 * (den - r) + s2 * r) + den) / (2 * den)`, and `/` on `Int`
(Euclidean division) is floor division for the positive denominator. -/
def jsRoundInterp (s1 s2 : Int) (r den : Nat) : Int :=
  (2 * (s1 * ((den : Int) - (r : Int)) + s2 * (r : Int)) + (den : Int)) / (2 * (den : Int))

/-- One output sample of `resampleAudio`: the exact-sample branch when
`inputIndexFloor` equals the clamped `inputIndexCeil`, the
linear-interpolation branch otherwise. -/
def resampleAt (samples : List Int) (inRate outRate i : Nat) : Int :=
  if loIdx inRate outRate i = hiIdx samples.length inRate outRate i then
    samples.getD (loIdx inRate outRate i) 0
  else
    jsRoundInterp (samples.getD (loIdx inRate outRate i) 0)
      (samples.getD (hiIdx samples.length inRate outRate i) 0)
      (idxRem inRate outRate i) outRate

/-- The interpolation formula applied unconditionally: the sample at the
floor index weighted by `1 - t` plus the sample at the clamped ceiling
index weighted by `t`, rounded.  This is the specification's reading
"each output sample is computed by linear interpolation between the
nearest input samples". -/
def interpSample (samples : List Int) (inRate outRate i : Nat) : Int :=
  jsRoundInterp (samples.getD (loIdx inRate outRate i) 0)
    (samples.getD (hiIdx samples.length inRate outRate i) 0)
    (idxRem inRate outRate i) outRate

/-- `resampleAudio` from audio-format-conversion.js at the sample level:
identity when the rates match, otherwise
`Math.ceil(inputSamples * outputRate / inputRate)` output samples, each
produced by `resampleAt`. -/
def resampleAudio (samples : List Int) (inRate outRate : Nat) : List Int :=
  if inRate = outRate then samples
  else
    (List.range (ceilDiv (samples.length * outRate) inRate)).map
      (resampleAt samples inRate outRate)

/-- `mulawToLinear` from audio-format-conversion.js at the byte level:
each μ-law byte becomes the two little-endian bytes of its table entry;
the result is resampled when the rates differ (source defaults are
8000 → 16000). -/
def mulawToLinear (mulawData : List Nat) (inputSampleRate outputSampleRate : Nat) :
    List Nat :=
  let linearData := mulawData.flatMap (fun b => writeInt16LE (mulawToLinearTable b))
  if inputSampleRate = outputSampleRate then linearData
  else bytesOfSamples (resampleAudio (samplesOfBytes linearData) inputSampleRate outputSampleRate)

/-- `linearToMulaw` from audio-format-conversion.js at the byte level:
resample first when the rates differ (source defaults are 16000 → 8000),
then encode each int16 sample; the store `mulawData[i] = ...` into the
`Buffer` truncates the encoder's result modulo 256. -/
def linearToMulaw (linearData : List Nat) (inputSampleRate outputSampleRate : Nat) :
    List Nat :=
  let resampledData :=
    if inputSampleRate ≠ outputSampleRate then
      bytesOfSamples (resampleAudio (samplesOfBytes linearData) inputSampleRate outputSampleRate)
    else linearData
  (samplesOfBytes resampledData).map (fun s => linearToMulawSample s % 256)

/-! ## RTP packetizer (rtp-server.js, class RtpServer) -/

/-- The `RtpServer` instance fields that `sendAudioData` and
`handleRtpPacket` read and write.  `isRunning` reflects the socket
state; `sequenceNumber`, `timestamp` and `ssrc` are the outbound RTP
header state initialised randomly in the constructor. -/
structure RtpState where
  isRunning : Bool
  sequenceNumber : Nat
  timestamp : Nat
  ssrc : Nat
  payloadType : Nat
deriving DecidableEq

/-- The 12-byte RTP header that `sendAudioData` writes from the current
state: fixed first byte `0x80` (version 2), payload type, big-endian
16-bit sequence number, 32-bit timestamp, 32-bit SSRC.  Byte stores into
the packet `Buffer` truncate modulo 256. -/
def rtpHeader (s : RtpState) : List Nat :=
  [0x80, s.payloadType % 256,
   (s.sequenceNumber >>> 8) % 256, s.sequenceNumber % 256,
   (s.timestamp >>> 24) % 256, (s.timestamp >>> 16) % 256,
   (s.timestamp >>> 8) % 256, s.timestamp % 256,
   (s.ssrc >>> 24) % 256, (s.ssrc >>> 16) % 256,
   (s.ssrc >>> 8) % 256, s.ssrc % 256]

/-- `RtpServer.sendAudioData`: returns without sending when the server
is not running or the target is invalid; otherwise builds header plus
payload, then advances `sequenceNumber` by `(n + 1) % 65536` and
`timestamp` by `(t + payload.length) % 0xFFFFFFFF` (the source's literal
modulus, which is 2^32 - 1).  `ssrc` and `payloadType` are never
written after construction. -/
def sendAudioData (s : RtpState) (audioData : List Nat) (targetValid : Bool) :
    RtpState × Option (List Nat) :=
  if s.isRunning = false then (s, none)
  else if targetValid = false then (s, none)
  else
    ({ s with
        sequenceNumber := (s.sequenceNumber + 1) % 65536,
        timestamp := (s.timestamp + audioData.length) % 0xFFFFFFFF },
      some (rtpHeader s ++ audioData))

/-- Events the `RtpServer` emits while handling one inbound datagram
(stats counters and logging are not modelled). -/
inductive RtpEvent where
  | clientConnected
  | audioData (payloadType sequenceNumber timestamp marker : Nat) (data : List Nat)
deriving DecidableEq

/-- `RtpServer.handleRtpPacket`: drops datagrams shorter than 12 bytes
with no event; otherwise parses the header (the 32-bit timestamp and
SSRC are composed with JS signed shifts — the unsigned 32-bit value with
the same bit pattern is used here; the SSRC is parsed but not emitted),
emits `client-connected` on first sight of the sender, and emits an
`audio-data` event whose payload starts after `12 + 4 * csrcCount`
bytes. -/
def handleRtpPacket (knownClient : Bool) (packet : List Nat) : List RtpEvent :=
  if packet.length < 12 then []
  else
    let csrcCount := packet.getD 0 0 &&& 0x0F
    let marker := (packet.getD 1 0 >>> 7) &&& 0x01
    let payloadType := packet.getD 1 0 &&& 0x7F
    let sequenceNumber := (packet.getD 2 0 <<< 8) ||| packet.getD 3 0
    let timestamp := (packet.getD 4 0 <<< 24) ||| (packet.getD 5 0 <<< 16) |||
      (packet.getD 6 0 <<< 8) ||| packet.getD 7 0
    let headerLength := 12 + csrcCount * 4
    let payload := packet.drop headerLength
    (if knownClient then [] else [RtpEvent.clientConnected]) ++
      [RtpEvent.audioData payloadType sequenceNumber timestamp marker payload]

/-- The payloads of the `audio-data` events in an emitted event list. -/
def audioDataPayloads (evs : List RtpEvent) : List (List Nat) :=
  evs.filterMap (fun e =>
    match e with
    | RtpEvent.audioData _ _ _ _ d => some d
    | _ => none)

/-! ## Media relay inbound path (asterisk-bridge.js, `setupExternalMedia`) -/

/-- The `CallState` fields the inbound RTP relay path touches:
`isConnected` / `isAgentReady` gate the relay, `wsOpen` is the duplex
socket's readyState check inside `sendAudioToServer`, `audioBuffer` is
the (never-appended) buffer field, `totalSent` the audio statistics
counter. -/
structure RelayState where
  isConnected : Bool
  isAgentReady : Bool
  wsOpen : Bool
  audioBuffer : List Nat
  totalSent : Nat
deriving DecidableEq

/-- `CallState.convertFromMulaw`: the source's conversion hook is a
pass-through stub ("For testing, just pass through the data"). -/
def convertFromMulaw (mulawData : List Nat) : List Nat := mulawData

/-- `CallState.sendAudioToServer`: refuses when the duplex socket is not
open or the buffer is empty; otherwise sends the frame and adds its
length to the sent counter. -/
def sendAudioToServer (s : RelayState) (audioData : List Nat) :
    RelayState × Option (List Nat) :=
  if s.wsOpen = false then (s, none)
  else if audioData.length = 0 then (s, none)
  else ({ s with totalSent := s.totalSent + audioData.length }, some audioData)

/-- The `rtpServer.on('audio-data')` handler installed by
`setupExternalMedia`: when `isConnected && isAgentReady`, convert the
payload and hand it to `sendAudioToServer`; otherwise do nothing (the
frame is dropped, no state is touched). -/
def onRtpAudioData (s : RelayState) (payload : List Nat) :
    RelayState × Option (List Nat) :=
  if s.isConnected && s.isAgentReady then
    sendAudioToServer s (convertFromMulaw payload)
  else (s, none)

/-! ## Heartbeat and reconnect (asterisk-bridge.js, `startPingPong`) -/

/-- The `CallState` fields driving the heartbeat: duplex socket
openness, the two readiness flags, the last-pong wall-clock time, and a
ghost counter of `reconnectToServer` invocations. -/
structure HbState where
  wsOpen : Bool
  isConnected : Bool
  isAgentReady : Bool
  lastPongTime : Nat
  reconnects : Nat
deriving DecidableEq

/-- `CallState.reconnectToServer`: closes the current duplex channel and
resets `isConnected` / `isAgentReady` before reopening.  It does not
touch `lastPongTime`. -/
def reconnectToServer (s : HbState) : HbState :=
  { s with wsOpen := false, isConnected := false, isAgentReady := false,
           reconnects := s.reconnects + 1 }

/-- External events of the heartbeat loop: a 5-second ping-interval tick
at wall-clock `now`, the socket's `open` event, and an inbound `pong`
message (whose handler sets `lastPongTime = Date.now()`). -/
inductive HbEvent where
  | tick (now : Nat)
  | wsOpened (now : Nat)
  | pong (now : Nat)
deriving DecidableEq

/-- Whether an event is a pong. -/
def HbEvent.isPong : HbEvent → Bool
  | .pong _ => true
  | _ => false

/-- One step of the heartbeat state machine.  A tick does nothing when
the socket is not open; otherwise it sends a ping and, when more than
15000 ms have passed since `lastPongTime`, calls `reconnectToServer`.
The `open` handler sets `isConnected` and restarts the ping interval;
the `pong` handler records the time. -/
def hbStep (s : HbState) : HbEvent → HbState
  | .tick now =>
      if s.wsOpen = false then s
      else if 15000 < now - s.lastPongTime then reconnectToServer s
      else s
  | .wsOpened _ => { s with wsOpen := true, isConnected := true }
  | .pong now => { s with lastPongTime := now }

/-- Run the heartbeat machine over a list of events. -/
def hbRun (s : HbState) : List HbEvent → HbState
  | [] => s
  | e :: es => hbRun (hbStep s e) es

/-! ## Playback queue (asterisk-bridge.js, `queueAudioPlayback` /
`playNextInQueue`) -/

/-- The `CallState` playback fields.  Segments are identified by
numbers (the source queues temp-file paths).  `active` is the ghost
list of segments whose playback is in flight (`channel.play` succeeded,
no `PlaybackFinished` yet); `started` is the ghost log, in order, of the
segments dequeued for a play attempt; `retryPending` is the ghost count
of 100 ms retry timers scheduled by the play-error catch branch and not
yet fired. -/
structure PlaybackState where
  queue : List Nat
  isPlaying : Bool
  active : List Nat
  started : List Nat
  retryPending : Nat
deriving DecidableEq

/-- `CallState.playNextInQueue`: with an empty queue, clear `isPlaying`
and return.  Otherwise set `isPlaying`, shift the head off the queue and
attempt `channel.play` on it; the attempt's outcome `ok` is decided by
the telephony control plane.  On success the segment is in flight until
`PlaybackFinished`.  On failure (both the `sound:` and `file:` attempts
throw) the catch branch sets `isPlaying = false`, deletes the temp file
(the segment is lost) and schedules `setTimeout(() =>
this.playNextInQueue(), 100)` — an *unguarded* retry that will run
regardless of what `isPlaying` is by then. -/
def playNextInQueue (ok : Bool) (s : PlaybackState) : PlaybackState :=
  match s.queue with
  | [] => { s with isPlaying := false }
  | seg :: rest =>
      if ok then
        { s with isPlaying := true, queue := rest,
                 active := s.active ++ [seg], started := s.started ++ [seg] }
      else
        { s with isPlaying := false, queue := rest,
                 started := s.started ++ [seg],
                 retryPending := s.retryPending + 1 }

/-- `CallState.queueAudioPlayback`: append the new segment to the queue
and, when nothing is playing, start the queue (the triggered play
attempt's outcome is `ok`). -/
def queueAudioPlayback (s : PlaybackState) (seg : Nat) (ok : Bool) : PlaybackState :=
  let s1 := { s with queue := s.queue ++ [seg] }
  if s1.isPlaying then s1 else playNextInQueue ok s1

/-- Playback events: an agent audio chunk arriving (enqueue), the
`PlaybackFinished` notification for an in-flight playback, and a
scheduled 100 ms error-retry timer firing.  Each event carries the
outcome the control plane gives to the play attempt it triggers (if
any). -/
inductive PbEvent where
  | enqueue (seg : Nat) (ok : Bool)
  | finished (ok : Bool)
  | retryFires (ok : Bool)
deriving DecidableEq

/-- Whether an event's play attempt (if it triggers one) succeeds: an
error-free run is one whose events all carry `ok = true`. -/
def PbEvent.errorFree : PbEvent → Bool
  | .enqueue _ ok => ok
  | .finished ok => ok
  | .retryFires ok => ok

/-- One step of the playback subsystem.  `PlaybackFinished` removes the
finished segment (the head of `active`; the event only fires while a
playback is in flight, so an empty `active` is a no-op) and chains into
`playNextInQueue`.  A retry timer can only fire if one is pending; it
consumes the timer and calls `playNextInQueue` with no `isPlaying`
guard, exactly as the source's `setTimeout` callback does. -/
def pbStep (s : PlaybackState) : PbEvent → PlaybackState
  | .enqueue seg ok => queueAudioPlayback s seg ok
  | .finished ok =>
      match s.active with
      | [] => s
      | _ :: rest => playNextInQueue ok { s with active := rest }
  | .retryFires ok =>
      if s.retryPending = 0 then s
      else playNextInQueue ok { s with retryPending := s.retryPending - 1 }

/-- Run the playback machine over a list of events. -/
def pbRun (s : PlaybackState) : List PbEvent → PlaybackState
  | [] => s
  | e :: es => pbRun (pbStep s e) es

/-- The segments enqueued by an event list, in arrival order. -/
def enqueuedSegs : List PbEvent → List Nat
  | [] => []
  | .enqueue seg _ :: es => seg :: enqueuedSegs es
  | .finished _ :: es => enqueuedSegs es
  | .retryFires _ :: es => enqueuedSegs es

/-- Mutual-exclusion invariant of the playback subsystem: at most one
segment is actively playing, none is when `isPlaying` is unset, and no
error-retry timer is outstanding (retry timers only exist after a play
error). -/
def PbInv (s : PlaybackState) : Prop :=
  s.active.length ≤ 1 ∧ (s.isPlaying = false → s.active = []) ∧ s.retryPending = 0

instance (s : PlaybackState) : Decidable (PbInv s) := by
  unfold PbInv; infer_instance

/-! ## Relay server WebSocket handler (server.js inside rtp-server.js,
`wss.on('connection')` / `ws.on('message')`) -/

/-- What the server's `ws.on('message')` handler does with one binary
buffer received on the duplex channel. -/
inductive WsAction where
  | jsonCommand (msg : List Nat)
  | forwardToDeepgram (msg : List Nat)
  | notReadyReply
deriving DecidableEq

/-- The binary branch of the server's message handler: a buffer whose
first byte is 123 (`0x7B`, the character `{`) is parsed as a JSON text
command; any other buffer is audio, forwarded to the agent connection
when it is configured and answered with a `not_ready` status otherwise.
(`message[0]` of an empty buffer is `undefined` in JS, which is not 123,
so the empty buffer also takes the audio branch; `getD` returns the
non-123 default 0 accordingly.) -/
def handleClientMessage (deepgramReady : Bool) (message : List Nat) : WsAction :=
  if message.getD 0 0 = 123 then WsAction.jsonCommand message
  else if deepgramReady then WsAction.forwardToDeepgram message
  else WsAction.notReadyReply

example : mulawRoundTrip 2500 = -260 := by decide
example : resampleAudio [0, 100] 8000 16000 = [0, 50, 100, 100] := by decide
example : linearToMulaw [16, 39] 8000 8000 = [134] := by decide

/-! ## Helper lemmas -/

/-- Rounding the interpolation formula between two equal samples returns
that sample: `round(s * (1 - t) + s * t) = round(s) = s`. -/
theorem jsRoundInterp_same (s : Int) (r den : Nat) (hden : 0 < den) :
    jsRoundInterp s s r den = s := by
  unfold jsRoundInterp
  have hnum : 2 * (s * ((den : Int) - (r : Int)) + s * (r : Int)) + (den : Int)
      = (den : Int) * (2 * s + 1) := by ring
  have hden2 : 2 * (den : Int) = (den : Int) * 2 := by ring
  rw [hnum, hden2, Int.mul_ediv_mul_of_pos _ _ (by exact_mod_cast hden)]
  have h1 : (2 * s + 1) = 1 + 2 * s := by ring
  rw [h1, Int.add_mul_ediv_left 1 s (by norm_num)]
  have h2 : (1 : Int) / 2 = 0 := by decide
  rw [h2, zero_add]

/-- Both branches of the resampler's per-sample computation agree with
the unconditional interpolation formula: in the exact-sample branch the
floor and (clamped) ceiling indices coincide, so the formula
interpolates a sample with itself. -/
theorem resampleAt_eq_interp (samples : List Int) (inRate outRate i : Nat)
    (hout : 0 < outRate) :
    resampleAt samples inRate outRate i = interpSample samples inRate outRate i := by
  unfold resampleAt interpSample
  by_cases h : loIdx inRate outRate i = hiIdx samples.length inRate outRate i
  · rw [if_pos h, ← h, jsRoundInterp_same _ _ _ hout]
  · rw [if_neg h]

/-- `ceilDiv a b` is the least multiple bound of the exact ceiling:
`a ≤ ceilDiv a b * b < a + b`, which characterises `⌈a / b⌉`. -/
theorem ceilDiv_spec (a b : Nat) (hb : 0 < b) :
    a ≤ ceilDiv a b * b ∧ ceilDiv a b * b < a + b := by
  unfold ceilDiv
  have h1 : (a + b - 1) / b < (a + b - 1) / b + 1 := Nat.lt_succ_self _
  have h2 := (Nat.div_lt_iff_lt_mul hb).1 h1
  have h3 : (a + b - 1) / b * b ≤ a + b - 1 := Nat.div_mul_le_self _ _
  rw [Nat.add_mul, one_mul] at h2
  omega

/-! ## Claim theorems -/

/-- C1: the claim that `muLawToLinear(linearToMuLaw(s))` stays within one
μ-law quantization step of `s` fails on the code.  At `s = 2500` the
encoder picks exponent 0 (its search finds the *smallest* exponent with
`biased ≤ 0xFFF >> i`, which is 0 for every biased magnitude up to 4095)
and the unmasked mantissa `2632 >> 4 = 164` sets bit 7, which the
decoder reads as the sign bit: the round trip returns −260, an error of
2760, larger than 1024 = the coarsest step of the decoder's grid
(consecutive top-segment magnitudes `(m << 10) + 132` differ by 1024),
and far larger than the 128 step at magnitude 2500. -/
theorem c1_roundtrip_failure :
    linearToMulawSample 2500 = 91 ∧
    mulawRoundTrip 2500 = -260 ∧
    (2500 : Int) - mulawRoundTrip 2500 = 2760 ∧
    (1024 : Int) < 2500 - mulawRoundTrip 2500 := by decide

/-- C10: for a sample whose biased magnitude exceeds 0xFFF the exponent
search finds nothing (exponent stays 0) and the mantissa `biased >> 4`
overflows 8 bits: `linearToMulawSample 10000 = 646 > 255`, and
`linearToMulaw` (the `Buffer` store `mulawData[i] = ...`) truncates it
modulo 256 to 134.  The bytes `[16, 39]` are the little-endian int16
encoding of 10000. -/
theorem c10_encoder_overflow :
    readInt16LE 16 39 = 10000 ∧
    linearToMulawSample 10000 = 646 ∧
    255 < linearToMulawSample 10000 ∧
    linearToMulaw [16, 39] 8000 8000 = [linearToMulawSample 10000 % 256] ∧
    linearToMulawSample 10000 % 256 = 134 := by decide

set_option maxRecDepth 40000 in
/-- C2: the claim that the Active-state inbound relay converts a
160-byte μ-law RTP payload to 320 bytes of linear16 fails on the code:
the installed handler calls `CallState.convertFromMulaw`, a pass-through
stub, so the duplex frame is the 160 μ-law bytes unchanged.  The
repository's real converter `mulawToLinear` (not invoked on this path)
would indeed produce 320 bytes at matching 8 kHz rates. -/
theorem c2_inbound_passthrough :
    (onRtpAudioData ⟨true, true, true, [], 0⟩ (List.replicate 160 255)).2
      = some (List.replicate 160 255) ∧
    (List.replicate 160 (255 : Nat)).length = 160 ∧
    (mulawToLinear (List.replicate 160 255) 8000 8000).length = 320 := by decide

/-- C3 counterexample: the claim says an inbound RTP audio frame is
relayed *iff* `connected` and `agentReady` are both true at that moment.
A zero-length frame (exactly what a 12-byte RTP datagram produces)
arriving with both flags true and the socket open is nevertheless
dropped by `sendAudioToServer`'s empty-buffer guard. -/
theorem c3_counterexample :
    (⟨true, true, true, [], 0⟩ : RelayState).isConnected = true ∧
    (⟨true, true, true, [], 0⟩ : RelayState).isAgentReady = true ∧
    (⟨true, true, true, [], 0⟩ : RelayState).wsOpen = true ∧
    (onRtpAudioData ⟨true, true, true, [], 0⟩ []).2 = none := by decide

/-- C3 (amended): an inbound RTP frame is relayed to the duplex channel
iff `connected`, `agentReady`, the duplex socket is open, and the frame
is nonempty; a frame failing the gate is dropped with the state left
completely unchanged (never buffered), and in every case the
`audioBuffer` field is untouched. -/
theorem c3_gating (s : RelayState) (payload : List Nat) :
    ((onRtpAudioData s payload).2 = some (convertFromMulaw payload) ↔
      (s.isConnected = true ∧ s.isAgentReady = true ∧ s.wsOpen = true ∧ payload ≠ [])) ∧
    ((onRtpAudioData s payload).2 = none → (onRtpAudioData s payload).1 = s) ∧
    (onRtpAudioData s payload).1.audioBuffer = s.audioBuffer := by
  rcases s with ⟨c, a, w, buf, ts⟩
  cases c <;> cases a <;> cases w <;> cases payload <;>
    simp [onRtpAudioData, sendAudioToServer, convertFromMulaw]

/-- Witness for C3: a nonempty frame in the fully ready state is
relayed. -/
theorem c3_gating_witness :
    (onRtpAudioData ⟨true, true, true, [], 0⟩ [7, 7]).2 = some (convertFromMulaw [7, 7]) :=
  ((c3_gating ⟨true, true, true, [], 0⟩ [7, 7]).1).mpr (by decide)

/-- C4 counterexample: with no pong ever received, the heartbeat
reconnects on the tick at t = 20000 *and again* on the tick at
t = 26000 after the channel reopened — two reconnect attempts for the
same missed pong, where the claim says exactly one. -/
theorem c4_counterexample :
    ([HbEvent.wsOpened 0, HbEvent.tick 20000, HbEvent.wsOpened 21000,
        HbEvent.tick 26000].all (fun e => !e.isPong)) = true ∧
    (hbRun ⟨false, false, false, 0, 0⟩
      [HbEvent.wsOpened 0, HbEvent.tick 20000, HbEvent.wsOpened 21000,
        HbEvent.tick 26000]).reconnects = 2 := by decide

/-- C4 (amended): a ping tick on an open channel with more than 15 s
since the last pong performs a reconnect attempt — closing the channel
and resetting `connected` / `agentReady` — but `lastPongTime` is not
reset, so subsequent ticks keep reconnecting until a pong arrives; a
tick within the threshold leaves the state unchanged. -/
theorem c4_heartbeat (s : HbState) (now : Nat) (hOpen : s.wsOpen = true) :
    (15000 < now - s.lastPongTime →
      hbStep s (HbEvent.tick now) = reconnectToServer s ∧
      (reconnectToServer s).reconnects = s.reconnects + 1 ∧
      (reconnectToServer s).lastPongTime = s.lastPongTime ∧
      (reconnectToServer s).isConnected = false ∧
      (reconnectToServer s).isAgentReady = false ∧
      (reconnectToServer s).wsOpen = false) ∧
    (now - s.lastPongTime ≤ 15000 → hbStep s (HbEvent.tick now) = s) := by
  constructor
  · intro h
    refine ⟨?_, rfl, rfl, rfl, rfl, rfl⟩
    simp [hbStep, hOpen, h]
  · intro h
    have h2 : ¬ 15000 < now - s.lastPongTime := by omega
    simp [hbStep, hOpen, h2]

/-- Witness for C4: an overdue tick from a concrete open state
reconnects and bumps the attempt counter. -/
theorem c4_heartbeat_witness :
    hbStep ⟨true, true, true, 0, 0⟩ (HbEvent.tick 20000)
      = reconnectToServer ⟨true, true, true, 0, 0⟩ ∧
    (reconnectToServer ⟨true, true, true, 0, 0⟩).reconnects = 0 + 1 :=
  ⟨((c4_heartbeat ⟨true, true, true, 0, 0⟩ 20000 rfl).1 (by decide)).1,
   ((c4_heartbeat ⟨true, true, true, 0, 0⟩ 20000 rfl).1 (by decide)).2.1⟩

/-- `playNextInQueue` moves the queue head (if any) into the
play-attempt log whatever the attempt's outcome, preserving the
concatenation of the log and the queue. -/
theorem playNextInQueue_concat (ok : Bool) (s : PlaybackState) :
    (playNextInQueue ok s).started ++ (playNextInQueue ok s).queue =
      s.started ++ s.queue := by
  rcases s with ⟨q, p, act, st, rp⟩
  cases q <;> cases ok <;> simp [playNextInQueue]

/-- One playback step preserves the log/queue concatenation, extended by
whatever the event enqueues. -/
theorem pbStep_concat (s : PlaybackState) (e : PbEvent) :
    (pbStep s e).started ++ (pbStep s e).queue =
      s.started ++ s.queue ++ enqueuedSegs [e] := by
  rcases s with ⟨q, p, act, st, rp⟩
  cases e with
  | enqueue seg ok =>
      cases p <;> cases ok <;> cases q <;>
        simp [pbStep, queueAudioPlayback, playNextInQueue, enqueuedSegs]
  | finished ok =>
      cases act <;> cases ok <;> cases q <;>
        simp [pbStep, playNextInQueue, enqueuedSegs]
  | retryFires ok =>
      cases rp <;> cases ok <;> cases q <;>
        simp [pbStep, playNextInQueue, enqueuedSegs]

/-- Over a whole run — play errors and retries included — the
play-attempt log followed by the remaining queue is the initial log and
queue followed by the enqueued segments in arrival order: segments are
dequeued for playback in strict FIFO order. -/
theorem pbRun_concat (s : PlaybackState) (es : List PbEvent) :
    (pbRun s es).started ++ (pbRun s es).queue = s.started ++ s.queue ++ enqueuedSegs es := by
  induction es generalizing s with
  | nil => simp [pbRun, enqueuedSegs]
  | cons e es ih =>
      show (pbRun (pbStep s e) es).started ++ (pbRun (pbStep s e) es).queue = _
      rw [ih (pbStep s e), pbStep_concat]
      cases e <;> simp [enqueuedSegs, List.append_assoc]

/-- A step whose play attempt (if any) succeeds preserves the
mutual-exclusion invariant. -/
theorem pbStep_inv (s : PlaybackState) (e : PbEvent) (h : PbInv s)
    (herr : e.errorFree = true) : PbInv (pbStep s e) := by
  rcases s with ⟨q, p, act, st, rp⟩
  rcases h with ⟨h1, h2, h3⟩
  subst h3
  cases e <;> simp only [PbEvent.errorFree] at herr <;> subst herr <;>
    cases p <;>
    rcases act with _ | ⟨a, _ | ⟨b, rest⟩⟩ <;> cases q <;>
    simp_all [pbStep, queueAudioPlayback, playNextInQueue, PbInv]

/-- An error-free run preserves the mutual-exclusion invariant. -/
theorem pbRun_inv (s : PlaybackState) (es : List PbEvent) (h : PbInv s)
    (herr : es.all PbEvent.errorFree = true) : PbInv (pbRun s es) := by
  induction es generalizing s with
  | nil => exact h
  | cons e es ih =>
      rw [List.all_cons, Bool.and_eq_true] at herr
      exact ih (pbStep s e) (pbStep_inv s e h herr.1) herr.2

/-- C5 counterexample: the at-most-one-playing invariant is not
unconditional.  From the constructor state, segment 1's play attempt
fails (the catch branch clears `isPlaying` and schedules the unguarded
100 ms retry), segment 2 then arrives and starts playing, segment 3 is
queued behind it, and when the retry timer fires it dequeues segment 3
and starts it concurrently: two playbacks are in flight at once. -/
theorem c5_counterexample :
    (pbRun ⟨[], false, [], [], 0⟩
      [PbEvent.enqueue 1 false, PbEvent.enqueue 2 true, PbEvent.enqueue 3 true,
       PbEvent.retryFires true]).active = [2, 3] ∧
    1 < (pbRun ⟨[], false, [], [], 0⟩
      [PbEvent.enqueue 1 false, PbEvent.enqueue 2 true, PbEvent.enqueue 3 true,
       PbEvent.retryFires true]).active.length := by decide

/-- C5 (amended): in every run — play errors included — segments are
dequeued for playback in strict FIFO arrival order (the play-attempt
log followed by the remaining queue extends the initial state by the
enqueued segments in order); and in runs free of play errors, from any
state satisfying the invariant, at most one segment is actively playing
at any time, with none playing while `isPlaying` is unset and no retry
timer pending.  With play errors the `playing` flag does not enforce
mutual exclusion (see the counterexample). -/
theorem c5_playback_fifo (s : PlaybackState) (es : List PbEvent) (h : PbInv s) :
    (pbRun s es).started ++ (pbRun s es).queue = s.started ++ s.queue ++ enqueuedSegs es ∧
    (es.all PbEvent.errorFree = true → PbInv (pbRun s es)) :=
  ⟨pbRun_concat s es, fun herr => pbRun_inv s es h herr⟩

/-- Witness for C5: segments 1, 2, 3 enqueued while segment 7 plays are
started in order 1, 2, 3 after 7, and the error-free run keeps the
invariant. -/
theorem c5_playback_fifo_witness :
    (pbRun ⟨[], true, [7], [7], 0⟩
      [PbEvent.enqueue 1 true, PbEvent.enqueue 2 true, PbEvent.enqueue 3 true,
       PbEvent.finished true, PbEvent.finished true, PbEvent.finished true,
       PbEvent.finished true]).started ++
    (pbRun ⟨[], true, [7], [7], 0⟩
      [PbEvent.enqueue 1 true, PbEvent.enqueue 2 true, PbEvent.enqueue 3 true,
       PbEvent.finished true, PbEvent.finished true, PbEvent.finished true,
       PbEvent.finished true]).queue
      = [7, 1, 2, 3] ∧
    PbInv (pbRun ⟨[], true, [7], [7], 0⟩
      [PbEvent.enqueue 1 true, PbEvent.enqueue 2 true, PbEvent.enqueue 3 true,
       PbEvent.finished true, PbEvent.finished true, PbEvent.finished true,
       PbEvent.finished true]) :=
  ⟨((c5_playback_fifo ⟨[], true, [7], [7], 0⟩
      [PbEvent.enqueue 1 true, PbEvent.enqueue 2 true, PbEvent.enqueue 3 true,
       PbEvent.finished true, PbEvent.finished true, PbEvent.finished true,
       PbEvent.finished true] (by decide)).1).trans (by decide),
   (c5_playback_fifo ⟨[], true, [7], [7], 0⟩
      [PbEvent.enqueue 1 true, PbEvent.enqueue 2 true, PbEvent.enqueue 3 true,
       PbEvent.finished true, PbEvent.finished true, PbEvent.finished true,
       PbEvent.finished true] (by decide)).2 (by decide)⟩

/-- C6 counterexample: the claim says the timestamp wraps modulo 2^32,
but the source wraps it modulo the literal `0xFFFFFFFF` = 2^32 − 1:
from timestamp 4294967294, sending a 1-byte payload yields timestamp 0
where mod-2^32 arithmetic yields 4294967295. -/
theorem c6_counterexample :
    (sendAudioData ⟨true, 0, 4294967294, 7, 0⟩ [0] true).1.timestamp = 0 ∧
    (4294967294 + 1) % 2 ^ 32 = 4294967295 ∧
    (0 : Nat) ≠ 4294967295 := by decide

/-- C6 (amended): every packet produced by `sendAudioData` carries the
current header state, the sequence number then advances by 1 modulo
65536 (so consecutive packets carry consecutive sequence numbers), the
timestamp advances by the payload byte length wrapping modulo
2^32 − 1 (`0xFFFFFFFF`, the source's literal modulus — not 2^32), and
the SSRC and payload type are unchanged for the instance's lifetime. -/
theorem c6_send (s : RtpState) (payload : List Nat) (h : s.isRunning = true) :
    (sendAudioData s payload true).2 = some (rtpHeader s ++ payload) ∧
    (sendAudioData s payload true).1.sequenceNumber = (s.sequenceNumber + 1) % 65536 ∧
    (sendAudioData s payload true).1.timestamp = (s.timestamp + payload.length) % (2 ^ 32 - 1) ∧
    (sendAudioData s payload true).1.ssrc = s.ssrc ∧
    (sendAudioData s payload true).1.payloadType = s.payloadType := by
  simp [sendAudioData, h]

/-- Witness for C6: a concrete send advances the sequence number with
wraparound from 65535 to 0. -/
theorem c6_send_witness :
    (sendAudioData ⟨true, 65535, 10, 7, 0⟩ [1, 2, 3] true).1.sequenceNumber
      = (65535 + 1) % 65536 :=
  (c6_send ⟨true, 65535, 10, 7, 0⟩ [1, 2, 3] rfl).2.1

/-- C7: a datagram shorter than 12 bytes is dropped with no event
emitted, while a datagram of exactly 12 bytes produces exactly one
`audio-data` event and its payload is empty (the payload starts at
`12 + 4 * csrcCount ≥ 12`, past the end of the datagram). -/
theorem c7_short_packet (knownClient : Bool) (packet : List Nat) :
    (packet.length < 12 → handleRtpPacket knownClient packet = []) ∧
    (packet.length = 12 →
      audioDataPayloads (handleRtpPacket knownClient packet) = [[]]) := by
  constructor
  · intro h
    simp [handleRtpPacket, h]
  · intro h
    have hlt : ¬ packet.length < 12 := by omega
    cases knownClient <;> simp [handleRtpPacket, hlt, audioDataPayloads] <;> omega

/-- Witness for C7: an 11-byte datagram emits nothing; a 12-byte
datagram emits one empty-payload audio event. -/
theorem c7_short_packet_witness :
    handleRtpPacket false (List.replicate 11 0) = [] ∧
    audioDataPayloads (handleRtpPacket false (List.replicate 12 0)) = [[]] :=
  ⟨(c7_short_packet false (List.replicate 11 0)).1 (by decide),
   (c7_short_packet false (List.replicate 12 0)).2 (by decide)⟩

/-- C8: `resampleAudio` is the identity whenever the rates are equal
(for any rate); otherwise its output length `L` satisfies
`inputSamples · outputRate ≤ L · inputRate < inputSamples · outputRate +
inputRate`, i.e. `L` is exactly `ceil(inputSamples · outputRate /
inputRate)`, and the whole output equals the map of the unconditional
linear-interpolation formula between the floor-index sample and the
clamped ceiling-index sample (the exact-sample branch agrees with the
formula). -/
theorem c8_resampleAudio (samples : List Int) (inRate outRate : Nat)
    (hin : 0 < inRate) (hout : 0 < outRate) (hne : inRate ≠ outRate) :
    (∀ r : Nat, resampleAudio samples r r = samples) ∧
    samples.length * outRate ≤ (resampleAudio samples inRate outRate).length * inRate ∧
    (resampleAudio samples inRate outRate).length * inRate
      < samples.length * outRate + inRate ∧
    resampleAudio samples inRate outRate =
      (List.range (ceilDiv (samples.length * outRate) inRate)).map
        (interpSample samples inRate outRate) := by
  have hlen : (resampleAudio samples inRate outRate).length
      = ceilDiv (samples.length * outRate) inRate := by
    simp [resampleAudio, hne]
  have hspec := ceilDiv_spec (samples.length * outRate) inRate hin
  refine ⟨fun r => by simp [resampleAudio], ?_, ?_, ?_⟩
  · rw [hlen]; exact hspec.1
  · rw [hlen]; exact hspec.2
  · unfold resampleAudio
    rw [if_neg hne]
    have hfun : resampleAt samples inRate outRate = interpSample samples inRate outRate :=
      funext (fun i => resampleAt_eq_interp samples inRate outRate i hout)
    rw [hfun]

/-- Witness for C8: upsampling two samples from 8 kHz to 16 kHz gives
the interpolation map, concretely `[0, 50, 100, 100]`. -/
theorem c8_resampleAudio_witness :
    resampleAudio [0, 100] 8000 16000 =
      (List.range (ceilDiv (List.length [(0 : Int), 100] * 16000) 8000)).map
        (interpSample [0, 100] 8000 16000) ∧
    resampleAudio [0, 100] 8000 16000 = [0, 50, 100, 100] :=
  ⟨(c8_resampleAudio [0, 100] 8000 16000 (by decide) (by decide) (by decide)).2.2.2,
   by decide⟩

/-- C9: a binary buffer on the duplex channel is dispatched to the JSON
command path iff its first byte is 123 (`0x7B`); every other buffer
(including the empty one) takes the audio path — forwarded to the agent
connection when configured, answered with `not_ready` otherwise — and is
never parsed as text. -/
theorem c9_first_byte (deepgramReady : Bool) (message : List Nat) :
    (handleClientMessage deepgramReady message = WsAction.jsonCommand message ↔
      message.getD 0 0 = 123) ∧
    (message.getD 0 0 ≠ 123 →
      handleClientMessage deepgramReady message =
        if deepgramReady then WsAction.forwardToDeepgram message
        else WsAction.notReadyReply) := by
  constructor
  · constructor
    · intro h
      by_contra hne
      unfold handleClientMessage at h
      rw [if_neg hne] at h
      cases deepgramReady <;> simp at h
    · intro h
      unfold handleClientMessage
      rw [if_pos h]
  · intro h
    unfold handleClientMessage
    rw [if_neg h]

/-- Witness for C9: a brace-initial buffer goes to the JSON path and a
non-brace buffer is forwarded as audio. -/
theorem c9_first_byte_witness :
    handleClientMessage true [123, 125] = WsAction.jsonCommand [123, 125] ∧
    handleClientMessage true [200, 1] = WsAction.forwardToDeepgram [200, 1] :=
  ⟨((c9_first_byte true [123, 125]).1).mpr (by decide),
   ((c9_first_byte true [200, 1]).2 (by decide)).trans (by decide)⟩
